import Mathlib

/-!
Shallow embedding of the redshift core (src/redshift.c): the temperature
mapper `calculate_temp`, the backend dispatcher `adjust_temperature`, and the
scheduler in `main` (single-shot branch and the continuous polling loop).

C floating-point values are embedded as rationals (exact real arithmetic);
a C assignment of a floating-point expression to an `int` variable truncates
toward zero, embedded as `ctrunc`.
-/

/-- C conversion from a floating value to `int`: truncation toward zero.
For nonnegative arguments this coincides with the floor. -/
def ctrunc (q : ℚ) : ℤ := if 0 ≤ q then ⌊q⌋ else -⌊-q⌋

/-- Modelled from the spec: `SOLAR_CIVIL_TWILIGHT_ELEV` is defined in
`solar.h`, which is not part of the given sources; the spec fixes the low
transition threshold at the civil-twilight elevation, `-6.0` degrees
(Scenario A: `LOW = -6.0`). -/
def SOLAR_CIVIL_TWILIGHT_ELEV : ℚ := -6

/-- `#define TRANSITION_LOW SOLAR_CIVIL_TWILIGHT_ELEV` (redshift.c line 66). -/
def TRANSITION_LOW : ℚ := SOLAR_CIVIL_TWILIGHT_ELEV

/-- `#define TRANSITION_HIGH 3.0` (redshift.c line 67). -/
def TRANSITION_HIGH : ℚ := 3

/-- Parameter bounds `MIN_TEMP`/`MAX_TEMP` (redshift.c lines 52-53). -/
def MIN_TEMP : ℤ := 1000

def MAX_TEMP : ℤ := 10000

/-- `calculate_temp` (redshift.c lines 91-113): piecewise mapping from solar
elevation to a colour temperature.  Below `TRANSITION_LOW` the night
temperature is returned; at or above `TRANSITION_HIGH` the day temperature;
in between the interpolation `(1-a)*temp_night + a*temp_day` with
`a = (TRANSITION_LOW - elevation) / (TRANSITION_LOW - TRANSITION_HIGH)`,
assigned to the `int temp`, hence truncated toward zero. -/
def calculate_temp (elevation : ℚ) (temp_day temp_night : ℤ) : ℤ :=
  if elevation < TRANSITION_LOW then
    temp_night
  else if elevation < TRANSITION_HIGH then
    ctrunc ((1 - (TRANSITION_LOW - elevation) / (TRANSITION_LOW - TRANSITION_HIGH)) * temp_night
      + ((TRANSITION_LOW - elevation) / (TRANSITION_LOW - TRANSITION_HIGH)) * temp_day)
  else
    temp_day

/-- The two native backends of `adjust_temperature` (RANDR and VidMode),
modelling the build in which both `ENABLE_RANDR` and `ENABLE_VIDMODE` are
defined. -/
inductive Backend where
  | randr
  | vidmode
deriving DecidableEq

/-- Modelled from the spec: the return codes of the external X11 calls
`randr_check_extension`, `randr_set_temperature`, `vidmode_check_extension`
and `vidmode_set_temperature` (declared in `randr.h`/`vidmode.h`, not part of
the given sources).  The spec exposes each backend only as a call with a
binary success/failure outcome, a negative return value meaning failure. -/
structure X11Env where
  randr_check : ℤ
  randr_set : ℤ
  vidmode_check : ℤ
  vidmode_set : ℤ
deriving DecidableEq

/-- `adjust_temperature` (redshift.c lines 115-165), for a build with both
backends enabled.  Returns the C return value (`0` success, `-1` failure)
together with the list of backends attempted, in order.  The RANDR block
runs when `use_randr` holds and sets `failed` when the extension check or
the set call fails; the VidMode block runs when `!use_randr || failed`,
resets `failed` to `0`, and sets it again when its own check or set call
fails. -/
def adjust_temperature (use_randr : Bool) (env : X11Env) : ℤ × List Backend :=
  let failed := false
  let r1 :=
    if use_randr then
      if env.randr_check < 0 then (true, [Backend.randr])
      else if env.randr_set < 0 then (true, [Backend.randr])
      else (false, [Backend.randr])
    else (failed, ([] : List Backend))
  let r2 :=
    if !use_randr || r1.1 then
      if env.vidmode_check < 0 then (true, r1.2 ++ [Backend.vidmode])
      else if env.vidmode_set < 0 then (true, r1.2 ++ [Backend.vidmode])
      else (false, r1.2 ++ [Backend.vidmode])
    else r1
  (if r2.1 then -1 else 0, r2.2)

/-- One iteration input of the continuous loop in `main`: the wall-clock
time read by `clock_gettime` (seconds), the solar elevation returned by
`solar_elevation` for that instant (modelled as an oracle input, as the
spec treats the astronomical formula as an external pure function), and
whether the backend call of this iteration succeeds. -/
structure IterInput where
  now : ℚ
  elevation : ℚ
  backendOk : Bool
deriving DecidableEq

/-- `int short_trans_len = 10` (redshift.c line 385). -/
def short_trans_len : ℚ := 10

/-- The initial-transition block of the loop body (redshift.c lines
403-413).  Given the `init_trans` flag at entry to the iteration, the ramp
end time `trans_end`, the current time `now` and the raw temperature `raw`
computed by `calculate_temp`, returns the temperature actually dispatched
and the value of the `init_trans` flag after the block: with the flag set,
`alpha = (trans_end - now) / short_trans_len`; when `alpha < 0` the flag is
cleared and `temp` is left unchanged, otherwise
`temp = alpha*6500 + (1.0-alpha)*temp` (an `int` assignment, truncating). -/
def loopIter (init_trans : Bool) (trans_end now : ℚ) (raw : ℤ) : ℤ × Bool :=
  if init_trans then
    if (trans_end - now) / short_trans_len < 0 then (raw, false)
    else
      (ctrunc (((trans_end - now) / short_trans_len) * 6500
        + (1 - (trans_end - now) / short_trans_len) * (raw : ℚ)), true)
  else (raw, false)

/-- Observable record of one executed loop iteration: the `init_trans` flag
at entry, the time read, the temperature dispatched to the backend, whether
the ramp blend was applied (equivalently, the `init_trans` flag after the
iteration), and the `usleep` argument in microseconds (`none` when the
iteration exited on backend failure, before reaching the sleep). -/
structure IterEvent where
  entryRamp : Bool
  now : ℚ
  temp : ℤ
  rampApplied : Bool
  slept : Option ℕ
deriving DecidableEq

/-- Outcome of running the continuous loop on a finite list of iteration
inputs: `failed` when some backend call failed (`exit(EXIT_FAILURE)`),
`running` when the inputs were exhausted with the loop still going (the
loop itself never terminates successfully). -/
inductive RunOutcome where
  | failed
  | running
deriving DecidableEq

/-- The `while (1)` loop of `main` (redshift.c lines 388-430), run on a
finite prefix of iteration inputs.  Each iteration reads the time, computes
the elevation's temperature via `calculate_temp`, applies the
initial-transition block, dispatches via `adjust_temperature` (abstracted to
the `backendOk` bit), exits with failure when the dispatch fails, and
otherwise sleeps 100000 us when `init_trans` is still set and 5000000 us
when it is not. -/
def runLoop (temp_day temp_night : ℤ) (trans_end : ℚ) :
    Bool → List IterInput → List IterEvent × RunOutcome
  | _, [] => ([], RunOutcome.running)
  | it, inp :: rest =>
    let raw := calculate_temp inp.elevation temp_day temp_night
    let p := loopIter it trans_end inp.now raw
    if inp.backendOk then
      let r := runLoop temp_day temp_night trans_end p.2 rest
      (⟨it, inp.now, p.1, p.2, some (if p.2 then 100000 else 5000000)⟩ :: r.1, r.2)
    else
      ([⟨it, inp.now, p.1, p.2, none⟩], RunOutcome.failed)

/-- Process exit status of a run of `main`'s scheduling part. -/
inductive ExitStatus where
  | success
  | failure
  | running
deriving DecidableEq

/-- The scheduling part of `main` (redshift.c lines 348-431).  With
`one_shot` set it reads the clock once, computes the temperature for the
current elevation, dispatches it once and terminates (`EXIT_SUCCESS` on
success, `EXIT_FAILURE` on backend failure); otherwise it sets
`short_trans_end = start + short_trans_len` and enters the continuous loop.
The first component lists the temperatures dispatched to the backend, in
order. -/
def runMain (one_shot init_trans : Bool) (temp_day temp_night : ℤ)
    (start : ℚ) (inputs : List IterInput) : List ℤ × ExitStatus :=
  if one_shot then
    match inputs with
    | [] => ([], ExitStatus.running)
    | inp :: _ =>
      let temp := calculate_temp inp.elevation temp_day temp_night
      ([temp], if inp.backendOk then ExitStatus.success else ExitStatus.failure)
  else
    let r := runLoop temp_day temp_night (start + short_trans_len) init_trans inputs
    (r.1.map IterEvent.temp,
      match r.2 with
      | RunOutcome.failed => ExitStatus.failure
      | RunOutcome.running => ExitStatus.running)

/-! Helper lemmas about `ctrunc` and the transition band. -/

theorem ctrunc_of_nonneg (q : ℚ) (h : 0 ≤ q) : ctrunc q = ⌊q⌋ := if_pos h

theorem ctrunc_intCast (n : ℤ) : ctrunc (n : ℚ) = n := by
  unfold ctrunc
  rcases le_or_lt 0 (n : ℚ) with h | h
  · rw [if_pos h, Int.floor_intCast]
  · rw [if_neg (not_le.2 h), ← Int.cast_neg, Int.floor_intCast, neg_neg]

theorem transition_frac_eq (e : ℚ) :
    (TRANSITION_LOW - e) / (TRANSITION_LOW - TRANSITION_HIGH) = (e + 6) / 9 := by
  rw [TRANSITION_LOW, TRANSITION_HIGH, SOLAR_CIVIL_TWILIGHT_ELEV]
  rw [div_eq_div_iff (by norm_num) (by norm_num)]
  ring

theorem calculate_temp_night (e : ℚ) (D N : ℤ) (h : e < TRANSITION_LOW) :
    calculate_temp e D N = N := by
  unfold calculate_temp
  rw [if_pos h]

theorem calculate_temp_day (e : ℚ) (D N : ℤ) (h : TRANSITION_HIGH ≤ e) :
    calculate_temp e D N = D := by
  unfold calculate_temp
  rw [if_neg, if_neg (not_lt.2 h)]
  rw [TRANSITION_LOW, SOLAR_CIVIL_TWILIGHT_ELEV]
  rw [TRANSITION_HIGH] at h
  exact not_lt.2 (by linarith)

theorem calculate_temp_band (e : ℚ) (D N : ℤ)
    (h1 : TRANSITION_LOW ≤ e) (h2 : e < TRANSITION_HIGH) :
    calculate_temp e D N = ctrunc ((1 - (e + 6) / 9) * N + ((e + 6) / 9) * D) := by
  unfold calculate_temp
  rw [if_neg (not_lt.2 h1), if_pos h2, transition_frac_eq]

theorem frac_nonneg (e : ℚ) (h : TRANSITION_LOW ≤ e) : 0 ≤ (e + 6) / 9 := by
  rw [TRANSITION_LOW, SOLAR_CIVIL_TWILIGHT_ELEV] at h
  apply div_nonneg <;> linarith

theorem frac_le_one (e : ℚ) (h : e < TRANSITION_HIGH) : (e + 6) / 9 < 1 := by
  rw [TRANSITION_HIGH] at h
  rw [div_lt_one (by norm_num)]
  linarith

theorem blend_ge_min (a : ℚ) (D N : ℤ) (ha0 : 0 ≤ a) (ha1 : a ≤ 1)
    (hD : 1000 ≤ D) (hN : 1000 ≤ N) :
    (1000 : ℚ) ≤ (1 - a) * N + a * D := by
  have hD' : (1000 : ℚ) ≤ (D : ℚ) := by exact_mod_cast hD
  have hN' : (1000 : ℚ) ≤ (N : ℚ) := by exact_mod_cast hN
  nlinarith

theorem blend_mono (a1 a2 : ℚ) (D N : ℤ) (h : a1 ≤ a2) (hND : N ≤ D) :
    (1 - a1) * (N : ℚ) + a1 * D ≤ (1 - a2) * N + a2 * D := by
  have hND' : (N : ℚ) ≤ (D : ℚ) := by exact_mod_cast hND
  nlinarith

theorem blend_anti (a1 a2 : ℚ) (D N : ℤ) (h : a1 ≤ a2) (hND : D ≤ N) :
    (1 - a2) * (N : ℚ) + a2 * D ≤ (1 - a1) * N + a1 * D := by
  have hND' : (D : ℚ) ≤ (N : ℚ) := by exact_mod_cast hND
  nlinarith

theorem blend_le_day (a : ℚ) (D N : ℤ) (ha1 : a ≤ 1) (hND : N ≤ D) :
    (1 - a) * (N : ℚ) + a * D ≤ D := by
  have hND' : (N : ℚ) ≤ (D : ℚ) := by exact_mod_cast hND
  nlinarith

theorem day_le_blend (a : ℚ) (D N : ℤ) (ha1 : a ≤ 1) (hND : D ≤ N) :
    (D : ℚ) ≤ (1 - a) * N + a * D := by
  have hND' : (D : ℚ) ≤ (N : ℚ) := by exact_mod_cast hND
  nlinarith

/-- In the transition band the mapper is the floor of the interpolation:
the truncation toward zero agrees with the floor because the blend of two
in-range temperatures is nonnegative. -/
theorem calculate_temp_band_floor (e : ℚ) (D N : ℤ)
    (h1 : TRANSITION_LOW ≤ e) (h2 : e < TRANSITION_HIGH)
    (hD : 1000 ≤ D) (hN : 1000 ≤ N) :
    calculate_temp e D N = ⌊(1 - (e + 6) / 9) * (N : ℚ) + ((e + 6) / 9) * D⌋ := by
  rw [calculate_temp_band e D N h1 h2]
  apply ctrunc_of_nonneg
  have := blend_ge_min ((e + 6) / 9) D N (frac_nonneg e h1)
    (le_of_lt (frac_le_one e h2)) hD hN
  linarith

/-! Claim theorems. -/

/-- C1 (counterexample): the claim says the transition-band result is
`round((1-a)*N + a*D)`.  At elevation `21/10` (inside the band) with
`D = 3701`, `N = 3700` the blend is `3700.9`: `calculate_temp` truncates it
to `3700`, while the claimed rounding gives `3701`. -/
theorem C1_round_counterexample :
    TRANSITION_LOW ≤ 21/10 ∧ (21/10 : ℚ) < TRANSITION_HIGH ∧
    calculate_temp (21/10) 3701 3700 = 3700 ∧
    round ((1 - (TRANSITION_LOW - 21/10) / (TRANSITION_LOW - TRANSITION_HIGH)) * (3700 : ℚ)
      + ((TRANSITION_LOW - 21/10) / (TRANSITION_LOW - TRANSITION_HIGH)) * (3701 : ℚ)) = 3701 ∧
    calculate_temp (21/10) 3701 3700 ≠
      round ((1 - (TRANSITION_LOW - 21/10) / (TRANSITION_LOW - TRANSITION_HIGH)) * (3700 : ℚ)
        + ((TRANSITION_LOW - 21/10) / (TRANSITION_LOW - TRANSITION_HIGH)) * (3701 : ℚ)) := by
  refine ⟨by norm_num [TRANSITION_LOW, SOLAR_CIVIL_TWILIGHT_ELEV],
    by norm_num [TRANSITION_HIGH], ?_, ?_, ?_⟩
  · norm_num [calculate_temp, ctrunc, TRANSITION_LOW, SOLAR_CIVIL_TWILIGHT_ELEV, TRANSITION_HIGH]
  · norm_num [round_eq, TRANSITION_LOW, SOLAR_CIVIL_TWILIGHT_ELEV, TRANSITION_HIGH]
  · norm_num [calculate_temp, ctrunc, round_eq, TRANSITION_LOW, SOLAR_CIVIL_TWILIGHT_ELEV,
      TRANSITION_HIGH]

/-- C1 (amended): for every elevation in the transition band
`TRANSITION_LOW ≤ e < TRANSITION_HIGH` and day/night temperatures in
`[1000, 9999]`, the mapper returns the interpolation
`(1-a)*N + a*D`, `a = (LOW - e)/(LOW - HIGH)`, truncated toward zero
(equivalently its floor, the blend being nonnegative) — not rounded; in
particular with `D = 5500`, `N = 3700`, `e = -1.5` it returns exactly
`4600`. -/
theorem C1_transition_interpolation (e : ℚ) (D N : ℤ)
    (h1 : TRANSITION_LOW ≤ e) (h2 : e < TRANSITION_HIGH)
    (hD1 : 1000 ≤ D) (hD2 : D ≤ 9999) (hN1 : 1000 ≤ N) (hN2 : N ≤ 9999) :
    calculate_temp e D N =
      ⌊(1 - (TRANSITION_LOW - e) / (TRANSITION_LOW - TRANSITION_HIGH)) * (N : ℚ)
        + ((TRANSITION_LOW - e) / (TRANSITION_LOW - TRANSITION_HIGH)) * (D : ℚ)⌋ ∧
    calculate_temp (-3/2) 5500 3700 = 4600 := by
  constructor
  · rw [transition_frac_eq]
    exact calculate_temp_band_floor e D N h1 h2 hD1 hN1
  · norm_num [calculate_temp, ctrunc, TRANSITION_LOW, SOLAR_CIVIL_TWILIGHT_ELEV, TRANSITION_HIGH]

/-- C1 (witness): the amended theorem applied at `e = -3/2`, `D = 5500`,
`N = 3700` evaluates to `4600`. -/
theorem C1_transition_interpolation_witness : calculate_temp (-3/2) 5500 3700 = 4600 :=
  (C1_transition_interpolation (-3/2) 5500 3700
    (by norm_num [TRANSITION_LOW, SOLAR_CIVIL_TWILIGHT_ELEV])
    (by norm_num [TRANSITION_HIGH])
    (by norm_num) (by norm_num) (by norm_num) (by norm_num)).2

/-- C3: for day/night temperatures in `[1000, 9999]`, every elevation below
`TRANSITION_LOW` maps to the night temperature exactly, the boundary
`TRANSITION_LOW` itself also maps to the night temperature, and every
elevation at or above `TRANSITION_HIGH` maps to the day temperature
exactly. -/
theorem C3_outside_band (e : ℚ) (D N : ℤ)
    (hD1 : 1000 ≤ D) (hD2 : D ≤ 9999) (hN1 : 1000 ≤ N) (hN2 : N ≤ 9999) :
    (e < TRANSITION_LOW → calculate_temp e D N = N) ∧
    calculate_temp TRANSITION_LOW D N = N ∧
    (TRANSITION_HIGH ≤ e → calculate_temp e D N = D) := by
  refine ⟨fun h => calculate_temp_night e D N h, ?_, fun h => calculate_temp_day e D N h⟩
  rw [calculate_temp_band TRANSITION_LOW D N le_rfl
    (by norm_num [TRANSITION_LOW, SOLAR_CIVIL_TWILIGHT_ELEV, TRANSITION_HIGH])]
  have : ((TRANSITION_LOW + 6) / 9 : ℚ) = 0 := by
    norm_num [TRANSITION_LOW, SOLAR_CIVIL_TWILIGHT_ELEV]
  rw [this]
  simpa using ctrunc_intCast N

/-- C3 (witness): at `D = 5500`, `N = 3700` the mapper returns `3700` for
elevations `-10` and `TRANSITION_LOW`, and `5500` for elevation `10`. -/
theorem C3_outside_band_witness :
    calculate_temp (-10) 5500 3700 = 3700 ∧
    calculate_temp TRANSITION_LOW 5500 3700 = 3700 ∧
    calculate_temp 10 5500 3700 = 5500 := by
  have h1 := C3_outside_band (-10) 5500 3700 (by norm_num) (by norm_num) (by norm_num) (by norm_num)
  have h2 := C3_outside_band 10 5500 3700 (by norm_num) (by norm_num) (by norm_num) (by norm_num)
  exact ⟨h1.1 (by norm_num [TRANSITION_LOW, SOLAR_CIVIL_TWILIGHT_ELEV]), h1.2.1,
    h2.2.2 (by norm_num [TRANSITION_HIGH])⟩

/-- C4: for day/night temperatures in `[1000, 9999]` with `D ≠ N`, the
mapper is monotone in elevation across the transition band
`[TRANSITION_LOW, TRANSITION_HIGH]`: increasing toward `D` when `N ≤ D`,
decreasing toward `D` when `D ≤ N`. -/
theorem C4_band_monotone (D N : ℤ) (e1 e2 : ℚ)
    (hD1 : 1000 ≤ D) (hD2 : D ≤ 9999) (hN1 : 1000 ≤ N) (hN2 : N ≤ 9999)
    (hDN : D ≠ N)
    (h1 : TRANSITION_LOW ≤ e1) (h12 : e1 ≤ e2) (h2 : e2 ≤ TRANSITION_HIGH) :
    (N ≤ D → calculate_temp e1 D N ≤ calculate_temp e2 D N) ∧
    (D ≤ N → calculate_temp e2 D N ≤ calculate_temp e1 D N) := by
  have h1' : TRANSITION_LOW ≤ e2 := le_trans h1 h12
  rcases lt_or_eq_of_le h2 with h2lt | h2eq
  · -- both elevations strictly inside the band
    have he1 : e1 < TRANSITION_HIGH := lt_of_le_of_lt h12 h2lt
    rw [calculate_temp_band_floor e1 D N h1 he1 hD1 hN1,
      calculate_temp_band_floor e2 D N h1' h2lt hD1 hN1]
    have hfr : (e1 + 6) / 9 ≤ (e2 + 6) / 9 := by gcongr <;> norm_num
    constructor
    · intro hND
      exact Int.floor_le_floor (blend_mono _ _ D N hfr hND)
    · intro hND
      exact Int.floor_le_floor (blend_anti _ _ D N hfr hND)
  · -- e2 is exactly TRANSITION_HIGH, where the mapper returns the day value
    rw [calculate_temp_day e2 D N (le_of_eq h2eq.symm)]
    rcases lt_or_eq_of_le (h2eq ▸ h12) with he1 | he1
    · rw [calculate_temp_band_floor e1 D N h1 he1 hD1 hN1]
      constructor
      · intro hND
        have hb := blend_le_day ((e1 + 6) / 9) D N (le_of_lt (frac_le_one e1 he1)) hND
        calc ⌊(1 - (e1 + 6) / 9) * (N : ℚ) + ((e1 + 6) / 9) * D⌋
            ≤ ⌊(D : ℚ)⌋ := Int.floor_le_floor hb
          _ = D := Int.floor_intCast D
      · intro hND
        have hb := day_le_blend ((e1 + 6) / 9) D N (le_of_lt (frac_le_one e1 he1)) hND
        exact Int.le_floor.mpr hb
    · rw [calculate_temp_day e1 D N (le_of_eq he1.symm)]
      exact ⟨fun _ => le_rfl, fun _ => le_rfl⟩

/-- C4 (witness): with `D = 5500`, `N = 3700` the mapper is increasing from
elevation `-3/2` to `0` inside the band. -/
theorem C4_band_monotone_witness :
    calculate_temp (-3/2) 5500 3700 ≤ calculate_temp 0 5500 3700 :=
  (C4_band_monotone 5500 3700 (-3/2) 0 (by norm_num) (by norm_num) (by norm_num) (by norm_num)
    (by norm_num)
    (by norm_num [TRANSITION_LOW, SOLAR_CIVIL_TWILIGHT_ELEV])
    (by norm_num)
    (by norm_num [TRANSITION_HIGH])).1 (by norm_num)

/-- C2 (counterexample): with both backends enabled and RANDR selected, a
failing `randr_set_temperature` (return `-1`) is not fatal: the VidMode
backend is tried within the same `adjust_temperature` call, and with VidMode
succeeding the call returns `0` (success). -/
theorem C2_fallback_counterexample :
    (X11Env.mk 0 (-1) 0 0).randr_set < 0 ∧
    adjust_temperature true (X11Env.mk 0 (-1) 0 0) = (0, [Backend.randr, Backend.vidmode]) ∧
    Backend.vidmode ∈ (adjust_temperature true (X11Env.mk 0 (-1) 0 0)).2 ∧
    (adjust_temperature true (X11Env.mk 0 (-1) 0 0)).1 ≠ -1 := by
  refine ⟨by norm_num, ?_, ?_, ?_⟩ <;> norm_num [adjust_temperature]

/-- C2 (amended): when the RANDR attempt fails (extension check or set
call returns negative), `adjust_temperature` falls back to VidMode within
the same call; the call reports failure (`-1`) exactly when that VidMode
attempt also fails, and success (`0`) exactly when it succeeds. -/
theorem adjust_temperature_randr_failed (env : X11Env)
    (h : env.randr_check < 0 ∨ env.randr_set < 0) :
    adjust_temperature true env =
      (if env.vidmode_check < 0 then ((-1 : ℤ), [Backend.randr, Backend.vidmode])
       else if env.vidmode_set < 0 then ((-1 : ℤ), [Backend.randr, Backend.vidmode])
       else ((0 : ℤ), [Backend.randr, Backend.vidmode])) := by
  have hr1 : (if env.randr_check < 0 then (true, [Backend.randr])
      else if env.randr_set < 0 then (true, [Backend.randr])
      else (false, [Backend.randr]) : Bool × List Backend) = (true, [Backend.randr]) := by
    rcases h with h | h
    · rw [if_pos h]
    · split_ifs <;> rfl
  rcases lt_or_le env.vidmode_check 0 with hv1 | hv1
  · rw [if_pos hv1]
    simp [adjust_temperature, hr1, hv1]
  · rcases lt_or_le env.vidmode_set 0 with hv2 | hv2
    · rw [if_neg (not_lt.2 hv1), if_pos hv2]
      simp [adjust_temperature, hr1, not_lt.2 hv1, hv2]
    · rw [if_neg (not_lt.2 hv1), if_neg (not_lt.2 hv2)]
      simp [adjust_temperature, hr1, not_lt.2 hv1, not_lt.2 hv2]

theorem C2_randr_fallback (env : X11Env)
    (h : env.randr_check < 0 ∨ env.randr_set < 0) :
    (adjust_temperature true env).2 = [Backend.randr, Backend.vidmode] ∧
    ((adjust_temperature true env).1 = 0 ↔ 0 ≤ env.vidmode_check ∧ 0 ≤ env.vidmode_set) ∧
    ((adjust_temperature true env).1 = -1 ↔ env.vidmode_check < 0 ∨ env.vidmode_set < 0) := by
  rw [adjust_temperature_randr_failed env h]
  split_ifs with h1 h2 <;>
    refine ⟨rfl, ?_, ?_⟩ <;> constructor <;> intro hx <;>
      first | rfl | omega | (rcases hx with hx | hx <;> omega)

/-- C2 (witness): the amended theorem applied at the concrete environment
where the RANDR set call fails and both VidMode calls succeed: VidMode is
attempted after RANDR and the call returns `0`. -/
theorem C2_randr_fallback_witness :
    (adjust_temperature true (X11Env.mk 0 (-1) 0 0)).2 = [Backend.randr, Backend.vidmode] ∧
    (adjust_temperature true (X11Env.mk 0 (-1) 0 0)).1 = 0 := by
  have h := C2_randr_fallback (X11Env.mk 0 (-1) 0 0) (Or.inr (by norm_num))
  exact ⟨h.1, h.2.1.mpr ⟨le_refl 0, le_refl 0⟩⟩

/-! Helper lemmas about the continuous loop. -/

theorem alpha_neg_iff (trans_end now : ℚ) :
    (trans_end - now) / short_trans_len < 0 ↔ trans_end < now := by
  rw [short_trans_len, div_lt_iff (by norm_num)]
  constructor <;> intro h <;> linarith

theorem loopIter_off (trans_end now : ℚ) (raw : ℤ) :
    loopIter false trans_end now raw = (raw, false) := rfl

theorem loopIter_expired (it : Bool) (trans_end now : ℚ) (raw : ℤ)
    (h : trans_end < now) :
    loopIter it trans_end now raw = (raw, false) := by
  cases it
  · rfl
  · unfold loopIter
    rw [if_pos rfl, if_pos ((alpha_neg_iff trans_end now).2 h)]

theorem loopIter_active (trans_end now : ℚ) (raw : ℤ) (h : now ≤ trans_end) :
    loopIter true trans_end now raw =
      (ctrunc (((trans_end - now) / short_trans_len) * 6500
        + (1 - (trans_end - now) / short_trans_len) * (raw : ℚ)), true) := by
  unfold loopIter
  rw [if_pos rfl, if_neg]
  rw [alpha_neg_iff]
  exact not_lt.2 h

theorem loopIter_snd_iff (it : Bool) (trans_end now : ℚ) (raw : ℤ) :
    (loopIter it trans_end now raw).2 = true ↔ (it = true ∧ now ≤ trans_end) := by
  cases it
  · simp [loopIter_off]
  · rcases le_or_lt now trans_end with h | h
    · rw [loopIter_active trans_end now raw h]
      simpa using h
    · rw [loopIter_expired true trans_end now raw h]
      simpa using not_le.2 h

theorem runLoop_nil (temp_day temp_night : ℤ) (trans_end : ℚ) (it : Bool) :
    runLoop temp_day temp_night trans_end it [] = ([], RunOutcome.running) := rfl

theorem runLoop_cons_ok (temp_day temp_night : ℤ) (trans_end : ℚ) (it : Bool)
    (inp : IterInput) (rest : List IterInput) (hok : inp.backendOk = true) :
    runLoop temp_day temp_night trans_end it (inp :: rest) =
      (⟨it, inp.now,
          (loopIter it trans_end inp.now (calculate_temp inp.elevation temp_day temp_night)).1,
          (loopIter it trans_end inp.now (calculate_temp inp.elevation temp_day temp_night)).2,
          some (if (loopIter it trans_end inp.now
            (calculate_temp inp.elevation temp_day temp_night)).2 then 100000 else 5000000)⟩ ::
        (runLoop temp_day temp_night trans_end
          (loopIter it trans_end inp.now (calculate_temp inp.elevation temp_day temp_night)).2
          rest).1,
        (runLoop temp_day temp_night trans_end
          (loopIter it trans_end inp.now (calculate_temp inp.elevation temp_day temp_night)).2
          rest).2) := by
  rw [runLoop, if_pos hok]

theorem runLoop_cons_fail (temp_day temp_night : ℤ) (trans_end : ℚ) (it : Bool)
    (inp : IterInput) (rest : List IterInput) (hok : inp.backendOk = false) :
    runLoop temp_day temp_night trans_end it (inp :: rest) =
      ([⟨it, inp.now,
          (loopIter it trans_end inp.now (calculate_temp inp.elevation temp_day temp_night)).1,
          (loopIter it trans_end inp.now (calculate_temp inp.elevation temp_day temp_night)).2,
          none⟩], RunOutcome.failed) := by
  rw [runLoop, if_neg (by rw [hok]; exact Bool.false_ne_true)]

/-- Once the `init_trans` flag is cleared the loop never applies the ramp
blend again: from the `false` state every event has `rampApplied = false`
and dispatches the raw mapper output. -/
theorem runLoop_steady (temp_day temp_night : ℤ) (trans_end : ℚ)
    (inputs : List IterInput) :
    ∀ e ∈ (runLoop temp_day temp_night trans_end false inputs).1,
      e.rampApplied = false := by
  induction inputs with
  | nil => simp [runLoop_nil]
  | cons inp rest ih =>
    by_cases hok : inp.backendOk
    · rw [runLoop_cons_ok temp_day temp_night trans_end false inp rest hok]
      intro e he
      rcases List.mem_cons.1 he with rfl | he
      · simp [loopIter_off]
      · rw [loopIter_off] at he
        exact ih e he
    · rw [runLoop_cons_fail temp_day temp_night trans_end false inp rest
        (Bool.not_eq_true inp.backendOk ▸ hok)]
      intro e he
      rcases List.mem_cons.1 he with rfl | he
      · simp [loopIter_off]
      · simp at he

/-- Lower bound of the mapper output: with both configured temperatures at
least `1000`, every output is at least `1000`. -/
theorem calculate_temp_ge (e : ℚ) (D N : ℤ) (hD : 1000 ≤ D) (hN : 1000 ≤ N) :
    1000 ≤ calculate_temp e D N := by
  rcases lt_or_le e TRANSITION_LOW with h1 | h1
  · rw [calculate_temp_night e D N h1]
    exact hN
  · rcases lt_or_le e TRANSITION_HIGH with h2 | h2
    · rw [calculate_temp_band_floor e D N h1 h2 hD hN]
      refine Int.le_floor.mpr ?_
      have := blend_ge_min ((e + 6) / 9) D N (frac_nonneg e h1)
        (le_of_lt (frac_le_one e h2)) hD hN
      push_cast
      linarith
    · rw [calculate_temp_day e D N h2]
      exact hD

/-- Mapper output at the sample elevation used for the ramp scenarios. -/
theorem calc_temp_day_sample : calculate_temp 10 4601 3700 = 4601 :=
  calculate_temp_day 10 4601 3700 (by norm_num [TRANSITION_HIGH])

/-- Ramp iteration at the sample instant: 3 s elapsed of the 10 s ramp,
target `4601`, blend `5930.3`, dispatched `5930`. -/
theorem loopIter_ramp_sample :
    loopIter true (0 + short_trans_len) 3 4601 = (5930, true) := by
  rw [loopIter_active (0 + short_trans_len) 3 4601 (by norm_num [short_trans_len])]
  norm_num [short_trans_len, ctrunc]

/-- Continuous-mode dispatch at the sample instant. -/
theorem runMain_ramp_sample :
    (runMain false true 4601 3700 0 [⟨3, 10, true⟩]).1 = [5930] := by
  show (runLoop 4601 3700 (0 + short_trans_len) true [⟨3, 10, true⟩]).1.map
    IterEvent.temp = [5930]
  rw [runLoop_cons_ok 4601 3700 (0 + short_trans_len) true ⟨3, 10, true⟩ [] rfl,
    runLoop_nil]
  dsimp only
  rw [calc_temp_day_sample, loopIter_ramp_sample]
  rfl

/-- C5 (counterexample): the claim says the ramped temperature dispatched
to the backend equals `alpha*6500 + (1-alpha)*target`.  With ramp start `0`
(`ramp_end_time = 10`), `now = 3` (`alpha = 0.7`) and target `4601`, the
blend is `5930.3`: the dispatched value is the truncation `5930`, which is
not equal to the claimed real value. -/
theorem C5_ramp_counterexample :
    (runMain false true 4601 3700 0 [⟨3, 10, true⟩]).1 = [5930] ∧
    ((5930 : ℚ) ≠ ((0 + short_trans_len - 3) / short_trans_len) * 6500
      + (1 - (0 + short_trans_len - 3) / short_trans_len)
        * ((calculate_temp 10 4601 3700 : ℤ) : ℚ)) := by
  refine ⟨runMain_ramp_sample, ?_⟩
  rw [calc_temp_day_sample]
  norm_num [short_trans_len]

/-- C5 (amended): in continuous mode while the startup ramp is active
(`init_trans` still set and `now ≤ ramp_end_time`, with `now` after the
scheduler start), the temperature dispatched to the backend is
`alpha*6500 + (1-alpha)*target` truncated to an integer (its floor, the
blend being nonnegative), where `target` is the mapper output and
`alpha = (ramp_end_time - now) / 10`; in particular with 3 s elapsed
(`alpha = 0.7`) and target `4600` the dispatched value is `5930`. -/
theorem C5_ramp_truncated_blend (D N : ℤ) (trans_end : ℚ) (inp : IterInput)
    (hD : 1000 ≤ D) (hN : 1000 ≤ N)
    (h1 : trans_end - short_trans_len ≤ inp.now) (h2 : inp.now ≤ trans_end) :
    (∀ e ∈ (runLoop D N trans_end true [inp]).1,
      e.temp = ⌊((trans_end - inp.now) / short_trans_len) * 6500
        + (1 - (trans_end - inp.now) / short_trans_len)
          * ((calculate_temp inp.elevation D N : ℤ) : ℚ)⌋) ∧
    (loopIter true 10 3 4600).1 = 5930 := by
  constructor
  · have hraw := calculate_temp_ge inp.elevation D N hD hN
    have hraw' : (1000 : ℚ) ≤ ((calculate_temp inp.elevation D N : ℤ) : ℚ) := by
      exact_mod_cast hraw
    have hα0 : 0 ≤ (trans_end - inp.now) / short_trans_len := by
      rw [short_trans_len]
      apply div_nonneg <;> linarith
    have hα1 : (trans_end - inp.now) / short_trans_len ≤ 1 := by
      rw [short_trans_len, div_le_one (by norm_num)]
      rw [short_trans_len] at h1
      linarith
    have hblend : 0 ≤ ((trans_end - inp.now) / short_trans_len) * 6500
        + (1 - (trans_end - inp.now) / short_trans_len)
          * ((calculate_temp inp.elevation D N : ℤ) : ℚ) := by
      nlinarith
    have hIter := loopIter_active trans_end inp.now (calculate_temp inp.elevation D N) h2
    intro e he
    by_cases hok : inp.backendOk
    · rw [runLoop_cons_ok D N trans_end true inp [] hok] at he
      rcases List.mem_cons.1 he with rfl | he
      · dsimp only
        rw [hIter, ctrunc_of_nonneg _ hblend]
      · rw [runLoop_nil] at he
        simp at he
    · rw [runLoop_cons_fail D N trans_end true inp []
        (Bool.not_eq_true inp.backendOk ▸ hok)] at he
      rcases List.mem_cons.1 he with rfl | he
      · dsimp only
        rw [hIter, ctrunc_of_nonneg _ hblend]
      · simp at he
  · rw [loopIter_active 10 3 4600 (by norm_num)]
    norm_num [short_trans_len, ctrunc]

/-- C5 (witness): the amended theorem applied with ramp end time `10`,
`now = 3` and mapper output `4600` (day temperature `4600`, elevation `10`):
the dispatched value evaluates to `5930`. -/
theorem C5_ramp_truncated_blend_witness : (loopIter true 10 3 4600).1 = 5930 :=
  (C5_ramp_truncated_blend 4600 3700 10 ⟨3, 10, true⟩ (by norm_num) (by norm_num)
    (by norm_num [short_trans_len]) (by norm_num)).2

/-- C6: in continuous mode a backend failure halts the loop within that
same iteration and the run exits with failure: with all earlier backend
calls succeeding and the call of iteration `l1.length` failing, exactly
`l1.length + 1` dispatches happen, the outcome is `failed`, and the run is
independent of any inputs that would have followed. -/
theorem C6_backend_failure_halts (D N : ℤ) (trans_end : ℚ) (it : Bool)
    (l1 : List IterInput) (inp : IterInput) (l2 : List IterInput)
    (hok : ∀ x ∈ l1, x.backendOk = true) (hfail : inp.backendOk = false) :
    ((runLoop D N trans_end it (l1 ++ inp :: l2)).1).length = l1.length + 1 ∧
    (runLoop D N trans_end it (l1 ++ inp :: l2)).2 = RunOutcome.failed ∧
    runLoop D N trans_end it (l1 ++ inp :: l2) = runLoop D N trans_end it (l1 ++ [inp]) := by
  induction l1 generalizing it with
  | nil =>
    simp only [List.nil_append]
    rw [runLoop_cons_fail D N trans_end it inp l2 hfail,
      runLoop_cons_fail D N trans_end it inp [] hfail]
    simp
  | cons x l1 ih =>
    have hx : x.backendOk = true := hok x (List.mem_cons_self x l1)
    have hok' : ∀ y ∈ l1, y.backendOk = true := fun y hy => hok y (List.mem_cons_of_mem x hy)
    simp only [List.cons_append]
    rw [runLoop_cons_ok D N trans_end it x (l1 ++ inp :: l2) hx,
      runLoop_cons_ok D N trans_end it x (l1 ++ [inp]) hx]
    obtain ⟨hlen, hout, heq⟩ :=
      ih (loopIter it trans_end x.now (calculate_temp x.elevation D N)).2 hok'
    refine ⟨?_, ?_, ?_⟩
    · simp [hlen]
    · simpa using hout
    · rw [heq]

/-- C6 (witness): the theorem applied to a run whose second backend call
fails: two dispatches happen, the outcome is `failed`, and the third input
is never reached. -/
theorem C6_backend_failure_halts_witness :
    ((runLoop 5500 3700 10 true
      ([⟨0, 10, true⟩] ++ ⟨1, 10, false⟩ :: [⟨2, 10, true⟩])).1).length = 2 ∧
    (runLoop 5500 3700 10 true
      ([⟨0, 10, true⟩] ++ ⟨1, 10, false⟩ :: [⟨2, 10, true⟩])).2 = RunOutcome.failed ∧
    runLoop 5500 3700 10 true ([⟨0, 10, true⟩] ++ ⟨1, 10, false⟩ :: [⟨2, 10, true⟩]) =
      runLoop 5500 3700 10 true ([⟨0, 10, true⟩] ++ [⟨1, 10, false⟩]) := by
  have h := C6_backend_failure_halts 5500 3700 10 true [⟨0, 10, true⟩] ⟨1, 10, false⟩
    [⟨2, 10, true⟩] (by intro x hx; rw [List.mem_singleton] at hx; subst hx; rfl) rfl
  exact ⟨by simpa using h.1, h.2.1, h.2.2⟩

/-- C7: every loop iteration that reaches its sleep sleeps 100000 us
exactly when the startup ramp is still active in that iteration (the
`init_trans` flag was set at entry and the current time has not passed the
ramp end time), and 5000000 us otherwise — in particular in every
iteration with the flag cleared, as when startup smoothing is disabled. -/
theorem C7_sleep_policy (D N : ℤ) (trans_end : ℚ) (it : Bool)
    (inputs : List IterInput) :
    ∀ e ∈ (runLoop D N trans_end it inputs).1, e.slept ≠ none →
      ((e.entryRamp = true ∧ e.now ≤ trans_end) → e.slept = some 100000) ∧
      (¬(e.entryRamp = true ∧ e.now ≤ trans_end) → e.slept = some 5000000) := by
  induction inputs generalizing it with
  | nil => simp [runLoop_nil]
  | cons inp rest ih =>
    by_cases hok : inp.backendOk
    · rw [runLoop_cons_ok D N trans_end it inp rest hok]
      intro e he hne
      rcases List.mem_cons.1 he with rfl | he
      · dsimp only
        constructor
        · intro hact
          rw [(loopIter_snd_iff it trans_end inp.now
            (calculate_temp inp.elevation D N)).2 hact]
          rfl
        · intro hact
          have hsnd : (loopIter it trans_end inp.now
              (calculate_temp inp.elevation D N)).2 = false := by
            rcases Bool.eq_false_or_eq_true
              (loopIter it trans_end inp.now (calculate_temp inp.elevation D N)).2 with h | h
            · exact absurd ((loopIter_snd_iff _ _ _ _).1 h) hact
            · exact h
          rw [hsnd]
          rfl
      · exact ih _ e he hne
    · rw [runLoop_cons_fail D N trans_end it inp rest
        (Bool.not_eq_true inp.backendOk ▸ hok)]
      intro e he hne
      rcases List.mem_cons.1 he with rfl | he
      · exact absurd rfl hne
      · simp at he

/-- Concrete two-iteration run used as a sample: ramp active at time `0`
(blend toward 6500, 100 ms sleep), expired at time `11` (raw dispatch,
5 s sleep). -/
theorem runLoop_two_iteration_sample :
    (runLoop 5500 3700 10 true [⟨0, 10, true⟩, ⟨11, 10, true⟩]).1 =
      [⟨true, 0, 6500, true, some 100000⟩, ⟨true, 11, 5500, false, some 5000000⟩] := by
  have hcalc : calculate_temp 10 5500 3700 = 5500 :=
    calculate_temp_day 10 5500 3700 (by norm_num [TRANSITION_HIGH])
  have hiter1 : loopIter true 10 0 5500 = (6500, true) := by
    rw [loopIter_active 10 0 5500 (by norm_num)]
    norm_num [short_trans_len, ctrunc]
  have hiter2 : loopIter true 10 11 5500 = (5500, false) :=
    loopIter_expired true 10 11 5500 (by norm_num)
  rw [runLoop_cons_ok 5500 3700 10 true ⟨0, 10, true⟩ [⟨11, 10, true⟩] rfl]
  dsimp only
  rw [hcalc, hiter1]
  rw [runLoop_cons_ok 5500 3700 10 (6500, true).2 ⟨11, 10, true⟩ [] rfl, runLoop_nil]
  dsimp only
  rw [hcalc, hiter2]
  rfl

/-- C7 (witness): the theorem applied to the first event of the sample run
(ramp active at time `0`, before the ramp end `10`): that iteration slept
100000 us. -/
theorem C7_sleep_policy_witness :
    (⟨true, (0 : ℚ), 6500, true, some 100000⟩ : IterEvent) ∈
      (runLoop 5500 3700 10 true [⟨0, 10, true⟩, ⟨11, 10, true⟩]).1 ∧
    (⟨true, (0 : ℚ), 6500, true, some 100000⟩ : IterEvent).slept = some 100000 := by
  have hmem : (⟨true, (0 : ℚ), 6500, true, some 100000⟩ : IterEvent) ∈
      (runLoop 5500 3700 10 true [⟨0, 10, true⟩, ⟨11, 10, true⟩]).1 := by
    rw [runLoop_two_iteration_sample]
    exact List.mem_cons_self _ _
  refine ⟨hmem, ?_⟩
  exact (C7_sleep_policy 5500 3700 10 true [⟨0, 10, true⟩, ⟨11, 10, true⟩] _ hmem
    (by simp)).1 ⟨rfl, by norm_num⟩

/-- C8: the ramp deactivates permanently.  In continuous mode, as soon as
an iteration runs with the current time past the ramp end
(elapsed time since scheduler start exceeding the 10 s ramp duration), that
iteration and every later one leave the ramp blend unapplied; and with
startup smoothing disabled (`init_trans` initially clear) no iteration ever
applies the blend. -/
theorem C8_ramp_deactivates_permanently (D N : ℤ) (trans_end : ℚ) (it : Bool)
    (l1 : List IterInput) (inp : IterInput) (l2 : List IterInput)
    (h : trans_end < inp.now) :
    (∀ e ∈ ((runLoop D N trans_end it (l1 ++ inp :: l2)).1).drop l1.length,
      e.rampApplied = false) ∧
    (∀ inputs : List IterInput, ∀ e ∈ (runLoop D N trans_end false inputs).1,
      e.rampApplied = false) := by
  refine ⟨?_, fun inputs => runLoop_steady D N trans_end inputs⟩
  induction l1 generalizing it with
  | nil =>
    simp only [List.nil_append, List.drop_zero]
    by_cases hok : inp.backendOk
    · rw [runLoop_cons_ok D N trans_end it inp l2 hok]
      intro e he
      rcases List.mem_cons.1 he with rfl | he
      · dsimp only
        rw [loopIter_expired it trans_end inp.now (calculate_temp inp.elevation D N) h]
      · rw [loopIter_expired it trans_end inp.now (calculate_temp inp.elevation D N) h] at he
        exact runLoop_steady D N trans_end l2 e he
    · rw [runLoop_cons_fail D N trans_end it inp l2
        (Bool.not_eq_true inp.backendOk ▸ hok)]
      intro e he
      rcases List.mem_cons.1 he with rfl | he
      · dsimp only
        rw [loopIter_expired it trans_end inp.now (calculate_temp inp.elevation D N) h]
      · simp at he
  | cons x l1 ih =>
    simp only [List.cons_append]
    by_cases hok : x.backendOk
    · rw [runLoop_cons_ok D N trans_end it x (l1 ++ inp :: l2) hok]
      simp only [List.length_cons, List.drop_succ_cons]
      exact ih _
    · rw [runLoop_cons_fail D N trans_end it x (l1 ++ inp :: l2)
        (Bool.not_eq_true x.backendOk ▸ hok)]
      simp

/-- C8 (witness): applied to a run whose second iteration (time `11`) is
past the ramp end `10`: from that iteration on no event applies the ramp
blend, and with smoothing disabled no event of a run ever does. -/
theorem C8_ramp_deactivates_permanently_witness :
    (∀ e ∈ ((runLoop 5500 3700 10 true
        ([⟨0, 10, true⟩] ++ ⟨11, 10, true⟩ :: [⟨12, 10, true⟩])).1).drop 1,
      e.rampApplied = false) ∧
    (∀ e ∈ (runLoop 5500 3700 10 false [⟨0, 10, true⟩]).1, e.rampApplied = false) := by
  have h := C8_ramp_deactivates_permanently 5500 3700 10 true [⟨0, 10, true⟩]
    ⟨11, 10, true⟩ [⟨12, 10, true⟩] (by norm_num)
  exact ⟨h.1, h.2 [⟨0, 10, true⟩]⟩

/-- C9: in single-shot mode the scheduler dispatches exactly one
temperature to the backend and terminates — with success exactly when that
backend call succeeds — and the result does not depend on any further
inputs: the polling loop is never entered. -/
theorem C9_single_shot_once (it : Bool) (D N : ℤ) (start : ℚ) (inp : IterInput)
    (rest : List IterInput) :
    (runMain true it D N start (inp :: rest)).1.length = 1 ∧
    (runMain true it D N start (inp :: rest)).2 =
      (if inp.backendOk then ExitStatus.success else ExitStatus.failure) ∧
    runMain true it D N start (inp :: rest) = runMain true it D N start [inp] :=
  ⟨rfl, rfl, rfl⟩

/-- C10: in single-shot mode the startup ramp is never applied, whatever
the value of the initial-transition flag: the single dispatched temperature
is exactly the raw mapper output for the current elevation.  Concretely, in
the sample configuration where continuous mode would dispatch the ramped
value `5930`, single-shot mode dispatches the raw mapper output `4601` even
with the flag enabled. -/
theorem C10_single_shot_no_ramp (it : Bool) (D N : ℤ) (start : ℚ) (inp : IterInput)
    (rest : List IterInput) :
    (runMain true it D N start (inp :: rest)).1 = [calculate_temp inp.elevation D N] ∧
    runMain true true D N start (inp :: rest) = runMain true false D N start (inp :: rest) ∧
    (runMain true true 4601 3700 0 [⟨3, 10, true⟩]).1 = [4601] ∧
    (runMain false true 4601 3700 0 [⟨3, 10, true⟩]).1 = [5930] := by
  refine ⟨rfl, rfl, ?_, runMain_ramp_sample⟩
  show [calculate_temp 10 4601 3700] = [4601]
  rw [calc_temp_day_sample]
